import Mathlib

/-!
Verification of the AutoTestGen_MAPS requirements pipeline.

This file gives a shallow embedding of the pure transformation logic of the
repository (the intake/elicitation agent, the SYS.2 drafting agent, the review
agent, and the status-update endpoint) and proves or refutes the frozen claims
about it.  The natural-language-analysis engine (spaCy) is an external
collaborator: it is modelled as an oracle `parse : String → List Token`
supplying per-token surface form, POS tag, dependency label, head index and
sentence text, and an oracle `classifyLabel : String → Option String` for the
text-classification pipeline (`none` models an unavailable/failing pipeline).
All other definitions are translated directly from the Python source.
-/

/-- Python substring test `needle in hay` on character lists. -/
def listHasSub (needle : List Char) : List Char → Bool
  | [] => needle.isEmpty
  | l@(_ :: rest) => needle.isPrefixOf l || listHasSub needle rest

/-- Python substring test `needle in hay` on strings. -/
def strContains (needle hay : String) : Bool :=
  listHasSub needle.data hay.data

/-- Python `str.lower()` (ASCII-relevant part), as a structurally recursive
function so that the kernel can evaluate it. -/
def pyLower (s : String) : String :=
  String.mk (s.data.map Char.toLower)

/-- Python `str.strip()`: remove leading and trailing whitespace, as a
structurally recursive function so that the kernel can evaluate it. -/
def pyStrip (s : String) : String :=
  String.mk (((s.data.dropWhile Char.isWhitespace).reverse.dropWhile
    Char.isWhitespace).reverse)

/-- A token as returned by the Text Analysis Port (spaCy).  `headIdx` is the
index of the syntactic head in the document token list; `sentText` is the text
of the sentence the token belongs to (`token.sent.text`). -/
structure Token where
  text : String
  dep : String
  pos : String
  headIdx : Nat
  sentText : String := ""
deriving DecidableEq, Repr

/-- Indices and tokens of the syntactic children of the token at index `i`
(tokens whose head is `i`, a token never being its own child), in document
order — spaCy's `token.children`. -/
def childrenIdx (doc : List Token) (i : Nat) : List (Nat × Token) :=
  doc.enum.filter (fun p => decide (p.1 ≠ i) && p.2.headIdx == i)

/-- The syntactic children of the token at index `i`, in document order. -/
def childrenOf (doc : List Token) (i : Nat) : List Token :=
  (childrenIdx doc i).map Prod.snd

/-- Python `f"{n:03d}"`: decimal rendering padded with zeros to width 3. -/
def fmt3 (n : Nat) : String :=
  if n < 10 then "00" ++ toString n
  else if n < 100 then "0" ++ toString n
  else toString n

namespace ReviewAgent

/-- `verification_phrases` of `ReviewAgent._check_compliance`. -/
def verificationPhrases : List String :=
  ["shall be tested", "shall be verified", "can be measured", "is measurable",
   "can be quantified"]

/-- `quantifiable_terms` of `ReviewAgent._check_compliance`. -/
def quantifiableTerms : List String :=
  ["seconds", "milliseconds", "%", "kbps", "mbps"]

/-- `ReviewAgent._check_compliance` for a single requirement text: returns the
triple `(is_verification_criteria_okay, testable, ireb_compliant)` of
`Pass`/`Fail` statuses. -/
def checkCompliance (reqText : String) : String × String × String :=
  let foundVerificationPhrase :=
    verificationPhrases.any (fun phrase => strContains phrase (pyLower reqText))
  let isVerificationCriteriaOkay :=
    if foundVerificationPhrase then "Pass" else "Fail"
  let testable0 := if foundVerificationPhrase then "Pass" else "Fail"
  let testable :=
    if testable0 == "Fail"
        && quantifiableTerms.any (fun term => strContains term (pyLower reqText))
    then "Pass" else testable0
  let irebCompliant :=
    if isVerificationCriteriaOkay == "Pass" && testable == "Pass"
    then "Pass" else "Fail"
  (isVerificationCriteriaOkay, testable, irebCompliant)

/-- `vague_terms` of `ReviewAgent._analyze_linguistics`. -/
def vagueTerms : List String :=
  ["flexible", "efficient", "robust", "appropriate", "adequate"]

/-- `ambiguous_pronouns` of `ReviewAgent._analyze_linguistics`. -/
def ambiguousPronouns : List String := ["it", "this", "they"]

/-- `found_vague_terms` of `ReviewAgent._analyze_linguistics`. -/
def foundVagueTerms (reqText : String) : List String :=
  vagueTerms.filter (fun term => strContains (pyLower term) (pyLower reqText))

/-- `found_ambiguous_pronouns` of `ReviewAgent._analyze_linguistics`. -/
def foundAmbiguousPronouns (reqText : String) : List String :=
  ambiguousPronouns.filter (fun p => strContains (pyLower p) (pyLower reqText))

/-- `ReviewAgent._analyze_linguistics` for a single requirement text: the
`unambiguity` status together with the `unambiguity_issues` list.  The vague
term check runs first and sets `Fail`; the pronoun check runs second and, when
it fires, overwrites the status with `Needs Review`. -/
def analyzeLinguistics (reqText : String) : String × List String :=
  let fv := foundVagueTerms reqText
  let status1 := if fv.isEmpty then "Pass" else "Fail"
  let issues1 : List String :=
    if fv.isEmpty then []
    else ["Contains vague terms: " ++ String.intercalate ", " fv]
  let fp := foundAmbiguousPronouns reqText
  let status2 := if fp.isEmpty then status1 else "Needs Review"
  let issues2 :=
    if fp.isEmpty then issues1
    else issues1 ++ ["May contain ambiguous pronouns: " ++ String.intercalate ", " fp]
  (status2, issues2)

end ReviewAgent

namespace Sys2Agent

/-- `Sys2Agent._determine_type`: ordered keyword rule set for the requirement
type. -/
def determineType (content : String) : String :=
  let contentLower := pyLower content
  if ["shall", "must", "will"].any (fun k => strContains k contentLower) then
    "Functional"
  else if ["should", "may"].any (fun k => strContains k contentLower) then
    "Non-functional"
  else if ["assume", "assuming", "assumption"].any
      (fun k => strContains k contentLower) then
    "Assumption"
  else if ["constraint", "limit", "restrict"].any
      (fun k => strContains k contentLower) then
    "Constraint"
  else
    "Other"

/-- `Sys2Agent._assign_priority`: keyword-based priority of the SYS.2
drafting agent. -/
def assignPriority (requirementText : String) : String :=
  let textLower := pyLower requirementText
  if strContains "critical" textLower || strContains "essential" textLower then
    "High"
  else if strContains "important" textLower || strContains "should" textLower then
    "Medium"
  else
    "Low"

/-- `Sys2Agent._infer_domain`: constant placeholder. -/
def inferDomain (_requirementText : String) : String := "Software"

/-- `Sys2Agent._map_verification`: ordered keyword rule set for the
verification method (the `sys2_id` argument is accepted and ignored, as in
the source). -/
def mapVerification (_sys2Id : String) (requirementText : String) : String :=
  let textLower := pyLower requirementText
  if ["system test", "qualification test", "acceptance test"].any
      (fun k => strContains k textLower) then
    "System Qualification Test (SYS.5)"
  else if ["test", "verify", "validate", "check"].any
      (fun k => strContains k textLower) then
    "Test"
  else if ["analyze", "analysis", "study"].any
      (fun k => strContains k textLower) then
    "Analysis"
  else if ["inspect", "inspection", "review"].any
      (fun k => strContains k textLower) then
    "Inspection"
  else
    "Test (Default)"

/-- `Sys2Agent._determine_classification`: interpret the external text
classifier's label when available, falling back to `determineType` when the
classifier is unavailable or fails (`classifyLabel text = none`). -/
def determineClassification (classifyLabel : String → Option String)
    (requirementText : String) : String :=
  match classifyLabel requirementText with
  | some rawLabel =>
    let label := pyLower rawLabel
    if strContains "functional" label || strContains "system" label then
      "Functional"
    else if strContains "non-functional" label || strContains "performance" label
        || strContains "security" label || strContains "usability" label then
      "Non-functional"
    else if strContains "assumption" label || strContains "assume" label then
      "Assumption"
    else if strContains "constraint" label || strContains "restrict" label
        || strContains "limit" label then
      "Constraint"
    else
      "Other"
  | none => determineType requirementText

/-- `Sys2Agent._load_templates` / `_apply_single_template`: look up the
template for `reqType.lower()` (defaulting to pass-through) and substitute the
requirement text.  Note the `Non-functional` type lowercases to
`"non-functional"`, which does not match the `"non_functional"` template key,
so it falls through to pass-through. -/
def applySingleTemplate (requirementText : String) (reqType : String) : String :=
  let key := pyLower reqType
  if key == "functional" then "The system shall " ++ requirementText
  else if key == "non_functional" then "The system shall " ++ requirementText
  else if key == "assumption" then "It is assumed that " ++ requirementText
  else if key == "constraint" then
    "The system is subject to the constraint that " ++ requirementText
  else requirementText

/-- `ambiguity_markers` of `Sys2Agent._technically_evaluate_and_rewrite`. -/
def ambiguityMarkers : List String :=
  ["may", "can", "might", "possibly", "usually", "generally"]

/-- Passive-voice detection of `_technically_evaluate_and_rewrite`: some token
has dependency `nsubjpass` and its head has a child with dependency
`auxpass`. -/
def passiveVoiceFound (doc : List Token) : Bool :=
  doc.any (fun t =>
    t.dep == "nsubjpass"
      && (childrenOf doc t.headIdx).any (fun c => c.dep == "auxpass"))

/-- Ambiguity-marker detection of `_technically_evaluate_and_rewrite`: some
token's lowercased surface form is in the fixed marker list. -/
def ambiguityMarkerFound (doc : List Token) : Bool :=
  doc.any (fun t => ambiguityMarkers.contains (pyLower t.text))

/-- Whether the head of the first `nsubjpass` token is POS-tagged `VERB` —
the condition under which the rewrite loop of
`_technically_evaluate_and_rewrite` binds `passive_verb`. -/
def passiveHeadIsVerb (doc : List Token) : Bool :=
  match doc.find? (fun t => t.dep == "nsubjpass") with
  | some t =>
    match doc.get? t.headIdx with
    | some h => h.pos == "VERB"
    | none => false
  | none => false

/-- `evaluation_findings` accumulated by `_technically_evaluate_and_rewrite`,
in source order: the passive-voice note first, the ambiguity-marker note
second. -/
def evaluationFindings (doc : List Token) : List String :=
  (if passiveVoiceFound doc then ["Potential passive voice detected."] else [])
    ++ (if ambiguityMarkerFound doc then ["Potential ambiguity marker detected."]
        else [])

/-- `rewritten_text_core` after the passive-voice branch of
`_technically_evaluate_and_rewrite`: the stripped source text, prefixed with
`[Passive voice considered]` when the first passive subject's head is a verb
(so `passive_verb` was bound), with `[Passive voice detected]` when not, and
unprefixed when no passive voice was detected. -/
def passiveRewriteCore (doc : List Token) (text : String) : String :=
  if passiveVoiceFound doc then
    if passiveHeadIsVerb doc then
      "[Passive voice considered] " ++ pyStrip text
    else
      "[Passive voice detected] " ++ pyStrip text
  else pyStrip text

/-- `other_findings` of `_technically_evaluate_and_rewrite`: the findings not
mentioning passive voice. -/
def otherFindings (doc : List Token) : List String :=
  (evaluationFindings doc).filter (fun f => !(strContains "passive voice" f))

/-- The `[Review: ...]` suffix step of `_technically_evaluate_and_rewrite`. -/
def reviewAnnotated (doc : List Token) (core : String) : String :=
  if (otherFindings doc).isEmpty then core
  else core ++ " [Review: " ++ String.intercalate "; " (otherFindings doc) ++ "]"

/-- `Sys2Agent._technically_evaluate_and_rewrite`: parse the source text via
the Text Analysis Port, annotate passive voice and ambiguity markers, and wrap
the result in the requirement-type template. -/
def technicallyEvaluateAndRewrite (parse : String → List Token)
    (sys1RequirementText : String) : String :=
  let doc := parse sys1RequirementText
  let reqType := determineType sys1RequirementText
  applySingleTemplate (reviewAnnotated doc (passiveRewriteCore doc sys1RequirementText))
    reqType

/-- The literal pattern of the `re.search(r' \[Technical Review: (.*?)\]', ...)`
call in `Sys2Agent._generate_rationale`. -/
def technicalReviewPat : List Char := " [Technical Review: ".data

/-- Search for the regular expression `' \[Technical Review: (.*?)\]'` and
return the first capture: at each candidate start the literal pattern must
match and a closing `]` must follow on the same line (`.` does not match a
newline); otherwise the search resumes at the next position. -/
def searchTechnicalReviewAux (pat : List Char) : List Char → Option (List Char)
  | [] => none
  | l@(_ :: rest) =>
    if pat.isPrefixOf l then
      let afterPat := l.drop pat.length
      let body := afterPat.takeWhile (fun c => !(c == ']') && !(c == '\n'))
      if (afterPat.drop body.length).head? == some ']' then some body
      else searchTechnicalReviewAux pat rest
    else searchTechnicalReviewAux pat rest

/-- The review-note extraction of `Sys2Agent._generate_rationale`. -/
def reSearchTechnicalReview (s : String) : Option String :=
  (searchTechnicalReviewAux technicalReviewPat s.data).map String.mk

/-- `Sys2Agent._generate_rationale`: space-joined rationale parts. -/
def generateRationale (sys1Id originalSys1Text draftedSys2Text classification
    verificationMapping : String) : String :=
  let parts := ["Derived from SYS.1 requirement " ++ sys1Id ++ ".",
                "Original text: " ++ originalSys1Text]
  let parts := parts ++
    (match reSearchTechnicalReview draftedSys2Text with
     | some note => ["Technical review noted: " ++ note ++ "."]
     | none => [])
  let parts := parts ++
    ["Classified as: " ++ classification ++ ".",
     "Verification method: " ++ verificationMapping ++ "."]
  String.intercalate " " parts

/-- The `main_verb`, `main_subject`, `main_object` extraction loop of
`Sys2Agent._generate_verification_criteria` (the last `ROOT` verb wins, its
first `nsubj`/`nsubjpass` child and first `dobj` child are taken, default
empty strings). -/
def rootVerbInfo (doc : List Token) : String × String × String :=
  doc.enum.foldl
    (fun acc p =>
      if p.2.dep == "ROOT" && p.2.pos == "VERB" then
        (p.2.text,
         ((((childrenOf doc p.1).find?
             (fun c => c.dep == "nsubj" || c.dep == "nsubjpass")).map
            Token.text).getD ""),
         ((((childrenOf doc p.1).find? (fun c => c.dep == "dobj")).map
            Token.text).getD ""))
      else acc)
    ("", "", "")

/-- The `conditions` extraction loop of
`Sys2Agent._generate_verification_criteria`: for each token whose dependency
is `advcl`/`acl` or whose lowercased text is `if`/`when`/`where`, append
`token.sent.text[token.i:].strip()` (the token's sentence text sliced from the
token's document index — the source indexes the sentence text by the token
index). -/
def criteriaConditions (doc : List Token) : List String :=
  doc.enum.filterMap (fun p =>
    if p.2.dep == "advcl" || p.2.dep == "acl"
        || ["if", "when", "where"].contains (pyLower p.2.text) then
      some (pyStrip (String.mk (p.2.sentText.data.drop p.1)))
    else none)

/-- `Sys2Agent._generate_verification_criteria`. -/
def generateVerificationCriteria (parse : String → List Token)
    (sys2RequirementText verificationMethod : String) : String :=
  let doc := parse sys2RequirementText
  let info := rootVerbInfo doc
  let mainVerb := info.1
  let mainSubject := info.2.1
  let mainObject := info.2.2
  let conditions := criteriaConditions doc
  let criteria :=
    if verificationMethod == "System Qualification Test (SYS.5)"
        || verificationMethod == "Test"
        || verificationMethod == "Test (Default)" then
      let c0 := "Develop test case(s) to verify that " ++ mainSubject ++ " can "
        ++ mainVerb ++ " " ++ mainObject ++ " "
      let c1 :=
        if !conditions.isEmpty then
          c0 ++ " when/if " ++ String.intercalate " and " conditions ++ "."
        else c0 ++ "."
      c1 ++ " Specifically, verify compliance with: " ++ pyStrip sys2RequirementText
    else if verificationMethod == "Analysis" then
      let c0 := "Perform analysis to confirm that " ++ mainSubject ++ " can "
        ++ mainVerb ++ " " ++ mainObject ++ ". "
      let c1 :=
        if !conditions.isEmpty then
          c0 ++ " The analysis should consider conditions such as: "
            ++ String.intercalate " and " conditions ++ "."
        else c0
      c1 ++ " Review documentation/models related to: " ++ pyStrip sys2RequirementText
    else if verificationMethod == "Inspection" then
      let c0 := "Inspect documentation and implementation to ensure "
        ++ mainSubject ++ " can " ++ mainVerb ++ " " ++ mainObject ++ ". "
      let c1 :=
        if !conditions.isEmpty then
          c0 ++ " Pay close attention to aspects related to: "
            ++ String.intercalate " and " conditions ++ "."
        else c0
      c1 ++ " Specifically, check for: " ++ pyStrip sys2RequirementText
    else "Verification criteria TBD."
  pyStrip criteria

/-- A SYS.1 requirement as read by `Sys2Agent._read_sys1_input` (the
`'SYS.1 Req. ID'` and `'SYS.1 System Requirement'` entries, both guaranteed
present). -/
structure Sys1Input where
  sys1_id : String
  sys1_requirement : String
deriving DecidableEq, Repr

/-- A SYS.2 requirement record as appended by `Sys2Agent.process_sys1_input`. -/
structure Sys2Record where
  sys1_id : String
  sys1_requirement : String
  sys2_id : String
  sys2_requirement : String
  domain : String
  priority : String
  release_planning : String
  rationale : String
  type : String
  classification : String
  verification_mapping : String
  verification_criteria : String
  req_status : String
deriving DecidableEq, Repr

/-- The per-requirement loop of `Sys2Agent.process_sys1_input`: empty or
whitespace-only SYS.1 texts are skipped (without consuming a SYS.2 id); each
remaining requirement yields one `Sys2Record` with the sequential id
`SYS.2-%03d`. -/
def processSys1Loop (parse : String → List Token)
    (classifyLabel : String → Option String) :
    List Sys1Input → Nat → List Sys2Record
  | [], _ => []
  | req :: rest, counter =>
    if (pyStrip req.sys1_requirement).data.isEmpty then
      processSys1Loop parse classifyLabel rest counter
    else
      let sys2_id := "SYS.2-" ++ fmt3 counter
      let drafted := technicallyEvaluateAndRewrite parse req.sys1_requirement
      let verification_mapping := "System Qualification Test (SYS.5)"
      { sys1_id := req.sys1_id,
        sys1_requirement := req.sys1_requirement,
        sys2_id := sys2_id,
        sys2_requirement := drafted,
        domain := inferDomain req.sys1_requirement,
        priority := assignPriority req.sys1_requirement,
        release_planning := "TBD",
        rationale := generateRationale req.sys1_id req.sys1_requirement drafted
          (determineClassification classifyLabel drafted)
          (mapVerification sys2_id drafted),
        type := determineType req.sys1_requirement,
        classification := "Functional",
        verification_mapping := verification_mapping,
        verification_criteria :=
          generateVerificationCriteria parse drafted verification_mapping,
        req_status := "Draft" }
        :: processSys1Loop parse classifyLabel rest (counter + 1)

/-- `Sys2Agent.apply_custom_rules`: the placeholder returns the list
unchanged. -/
def applyCustomRules (sys2Requirements : List Sys2Record) : List Sys2Record :=
  sys2Requirements

/-- The `sys2_requirements` list produced by `Sys2Agent.process_sys1_input`
on the success path (the SYS.2 id counter starts at 1; custom rules are
applied to the finished list). -/
def processSys1Input (parse : String → List Token)
    (classifyLabel : String → Option String)
    (sys1Requirements : List Sys1Input) : List Sys2Record :=
  applyCustomRules (processSys1Loop parse classifyLabel sys1Requirements 1)

end Sys2Agent

namespace ElicitationAgent

/-- A raw customer requirement as extracted by
`ElicitationAgent._extract_customer_requirements`. -/
structure CustReq where
  customer_id : String
  customer_requirement : String
deriving DecidableEq, Repr

/-- A SYS.1 requirement record as appended by
`ElicitationAgent._generate_sys1_requirements`.  The padding records appended
at the end of that method carry no `customer_id`/`customer_requirement` keys,
modelled here by `none`. -/
structure Sys1Record where
  sys1_id : String
  sys1_requirement : String
  customer_trace_ids : List String
  domain : String
  priority : String
  req_status : String
  rationale : String
  customer_id : Option String
  customer_requirement : Option String
deriving DecidableEq, Repr

/-- The action-phrase extraction of
`ElicitationAgent._generate_sys1_requirements`: from the first `ROOT` verb,
collect the verb and its `dobj`/`nobj`/`advmod` children plus prepositions
that have children, together with those prepositions'
`pobj`/`dobj`/`nsubj`/`attr`/`compound` children; fall back to
`implement the capability to <text.lower()>` when no root verb is found. -/
def actionPhrase (doc : List Token) (customerText : String) : String :=
  match doc.enum.find? (fun p => p.2.dep == "ROOT" && p.2.pos == "VERB") with
  | some rootP =>
    let childParts := fun (p : Nat × Token) =>
      if p.2.dep == "dobj" || p.2.dep == "nobj" || p.2.dep == "advmod"
          || (p.2.dep == "prep" && !(childrenIdx doc p.1).isEmpty) then
        [p.2.text] ++
          (if p.2.dep == "prep" then
            (childrenIdx doc p.1).filterMap (fun g =>
              if ["pobj", "dobj", "nsubj", "attr", "compound"].contains g.2.dep
              then some g.2.text else none)
          else [])
      else []
    String.intercalate " "
      ([rootP.2.text] ++ ((childrenIdx doc rootP.1).map childParts).flatten)
  | none => "implement the capability to " ++ pyLower customerText

/-- The generation loop of `ElicitationAgent._generate_sys1_requirements`
(with `num_sys1 = 1` as in the source): skips falsy (empty) customer texts,
threads the `sys1_counter`, and returns both the records and the counter value
after the loop. -/
def generateLoop (parse : String → List Token) :
    List CustReq → Nat → List Sys1Record × Nat
  | [], counter => ([], counter)
  | cr :: rest, counter =>
    if cr.customer_requirement.data.isEmpty then generateLoop parse rest counter
    else
      let doc := parse cr.customer_requirement
      let sys1Text := "The system shall " ++ actionPhrase doc cr.customer_requirement
        ++ ". [Derived from: " ++ cr.customer_requirement
        ++ " - Add specific behavior/conditions here]."
      let record : Sys1Record :=
        { sys1_id := "SYS.1-" ++ fmt3 counter,
          sys1_requirement := sys1Text,
          customer_trace_ids := [cr.customer_id],
          domain := "",
          priority := "",
          req_status := "Draft",
          rationale := "Justification: This SYS.1 requirement is necessary to address the customer need for \"" ++ cr.customer_requirement ++ "\".",
          customer_id := some cr.customer_id,
          customer_requirement := some cr.customer_requirement }
      let tail := generateLoop parse rest (counter + 1)
      (record :: tail.1, tail.2)

/-- One padding record appended by the `while` loop at the end of
`ElicitationAgent._generate_sys1_requirements`: empty text, empty trace list,
no customer fields. -/
def mkPaddedSys1 (counter : Nat) : Sys1Record :=
  { sys1_id := "SYS.1-" ++ fmt3 counter,
    sys1_requirement := "",
    customer_trace_ids := [],
    domain := "",
    priority := "",
    req_status := "Draft",
    rationale := "",
    customer_id := none,
    customer_requirement := none }

/-- The padding `while` loop (`min_sys1_count = 10`): append padded records
until the list has at least 10 entries.  Each iteration grows the list by one,
so fuel 10 makes this the exact behaviour of the source's `while`. -/
def padSys1 : Nat → Nat → List Sys1Record → List Sys1Record
  | 0, _, lst => lst
  | fuel + 1, counter, lst =>
    if lst.length < 10 then padSys1 fuel (counter + 1) (lst ++ [mkPaddedSys1 counter])
    else lst

/-- `ElicitationAgent._generate_sys1_requirements`: generation followed by
padding to the minimum display count. -/
def generateSys1Requirements (parse : String → List Token)
    (customerRequirements : List CustReq) : List Sys1Record :=
  let gen := generateLoop parse customerRequirements 1
  padSys1 10 gen.2 gen.1

/-- `ElicitationAgent._classify_domain`: ordered keyword rule set. -/
def classifyDomain (requirementText : String) : String :=
  let text := pyLower requirementText
  if ["software", "code", "algorithm", "api", "database", "interface", "ui",
      "ux"].any (fun k => strContains k text) then "Software"
  else if ["hardware", "chip", "processor", "memory", "board", "electronic",
      "circuit"].any (fun k => strContains k text) then "Hardware"
  else if ["mechanical", "chassis", "structure", "bolt", "screw", "material",
      "assembly"].any (fun k => strContains k text) then "Mechanical"
  else "System"

/-- `ElicitationAgent._assign_priority`: ordered keyword rule set of the
intake agent. -/
def assignPriority (requirementText : String) : String :=
  let text := pyLower requirementText
  if ["must", "shall", "critical", "safety"].any (fun k => strContains k text)
  then "High"
  else if ["should", "important"].any (fun k => strContains k text)
  then "Medium"
  else if ["could", "nice to have", "optional"].any (fun k => strContains k text)
  then "Low"
  else "Medium"

/-- The SYS.1 part of `ElicitationAgent.process`: generate the SYS.1 records,
then assign domain, priority and the initial `Draft` status to every record
(padded ones included). -/
def elicitationProcess (parse : String → List Token)
    (customerRequirements : List CustReq) : List Sys1Record :=
  (generateSys1Requirements parse customerRequirements).map (fun r =>
    { r with domain := classifyDomain r.sys1_requirement,
             priority := assignPriority r.sys1_requirement,
             req_status := "Draft" })

end ElicitationAgent

namespace App

/-- The update loop of the `/api/agent1/update_status` route
(`update_requirement_status` in `app.py`): the first record whose `sys1_id`
matches gets the provided status, verbatim and unvalidated, and the loop
stops. -/
def updateStatusLoop :
    List ElicitationAgent.Sys1Record → String → String →
      List ElicitationAgent.Sys1Record
  | [], _, _ => []
  | r :: rest, sys1Id, newStatus =>
    if r.sys1_id == sys1Id then { r with req_status := newStatus } :: rest
    else r :: updateStatusLoop rest sys1Id newStatus

/-- `update_requirement_status` in `app.py`: with a falsy (empty) id or
status the request is rejected and the stored list is unchanged; otherwise
the first matching record's `req_status` is set to the provided value —
whatever that value is and whatever the record's current status is. -/
def updateRequirementStatus (sys1Requirements : List ElicitationAgent.Sys1Record)
    (sys1Id newReqStatus : String) : List ElicitationAgent.Sys1Record :=
  if sys1Id.data.isEmpty || newReqStatus.data.isEmpty then sys1Requirements
  else updateStatusLoop sys1Requirements sys1Id newReqStatus

end App

namespace SpecModel

/-- The priority rule set exactly as the specification words it (for the
refinement comparison with the code's classifiers): High if the text contains
any of must/shall/critical/safety; else Medium if should/important; else Low
if could/nice to have/optional; else Medium — case-insensitive substring
tests. -/
def intakePriorityRule (requirementText : String) : String :=
  let text := pyLower requirementText
  if ["must", "shall", "critical", "safety"].any (fun k => strContains k text)
  then "High"
  else if ["should", "important"].any (fun k => strContains k text)
  then "Medium"
  else if ["could", "nice to have", "optional"].any (fun k => strContains k text)
  then "Low"
  else "Medium"

/-- The rule set the SYS.2 drafting agent actually implements, stated
declaratively (for the refinement comparison): High if the text contains
critical or essential; else Medium if important or should; else Low. -/
def sys2PriorityRule (requirementText : String) : String :=
  let textLower := pyLower requirementText
  if strContains "critical" textLower || strContains "essential" textLower then
    "High"
  else if strContains "important" textLower || strContains "should" textLower then
    "Medium"
  else
    "Low"

end SpecModel

/-- A Text Analysis Port returning no tokens (the degenerate parse). -/
def emptyParse : String → List Token := fun _ => []

/-- An unavailable text-classification pipeline (`self.classifier is None` or
a failing pipeline call). -/
def noClassifier : String → Option String := fun _ => none

/-- A parse of `"It is done"` with the usual spaCy analysis: `It` is the
passive subject of the root verb `done`, which carries the passive auxiliary
`is`. -/
def passiveDoc : List Token :=
  [{ text := "It", dep := "nsubjpass", pos := "PRON", headIdx := 2 },
   { text := "is", dep := "auxpass", pos := "AUX", headIdx := 2 },
   { text := "done", dep := "ROOT", pos := "VERB", headIdx := 2 }]

/-- A Text Analysis Port that parses every text as `passiveDoc`. -/
def passiveParse : String → List Token := fun _ => passiveDoc

/-- A parse of `"The data may be processed"`: `data` is the passive subject
of the root verb `processed` (with passive auxiliary `be`), and the modal
`may` is an ambiguity marker. -/
def modalPassiveDoc : List Token :=
  [{ text := "The", dep := "det", pos := "DET", headIdx := 1 },
   { text := "data", dep := "nsubjpass", pos := "NOUN", headIdx := 4 },
   { text := "may", dep := "aux", pos := "AUX", headIdx := 4 },
   { text := "be", dep := "auxpass", pos := "AUX", headIdx := 4 },
   { text := "processed", dep := "ROOT", pos := "VERB", headIdx := 4 }]

/-- A Text Analysis Port that parses every text as `modalPassiveDoc`. -/
def modalPassiveParse : String → List Token := fun _ => modalPassiveDoc

/-- A stored SYS.1 record whose status has already reached the terminal
`Rejected` state. -/
def rejectedRecord : ElicitationAgent.Sys1Record :=
  { sys1_id := "SYS.1-001",
    sys1_requirement := "The system shall brew coffee.",
    customer_trace_ids := ["CUST_REQ-001"],
    domain := "System",
    priority := "Medium",
    req_status := "Rejected",
    rationale := "",
    customer_id := some "CUST_REQ-001",
    customer_requirement := some "Brew coffee" }

/-- Erase the `rationale` field of a SYS.2 record (used to compare pipeline
outputs up to the rationale text). -/
def stripRationale (r : Sys2Agent.Sys2Record) : Sys2Agent.Sys2Record :=
  { r with rationale := "" }

/-- String append is associative (used to normalise the literal pieces of the
annotation suffixes). -/
lemma string_append_assoc (a b c : String) : a ++ b ++ c = a ++ (b ++ c) := by
  cases a; cases b; cases c
  exact congrArg String.mk (List.append_assoc _ _ _)

/-- Merging the literal pieces of the `[Review: ...]` suffix. -/
lemma review_suffix_merge (s : String) :
    s ++ " [Review: " ++ "Potential ambiguity marker detected." ++ "]"
      = s ++ " [Review: Potential ambiguity marker detected.]" := by
  rw [string_append_assoc, string_append_assoc]
  congr 1

/-- A non-empty string has a non-empty character list. -/
lemma string_data_isEmpty_eq_false {s : String} (h : s ≠ "") :
    s.data.isEmpty = false := by
  rcases s with ⟨l⟩
  cases l with
  | nil => exact absurd rfl h
  | cons a t => rfl

/-- Every record emitted by the SYS.2 drafting loop carries the hardcoded
classification, verification mapping and initial status. -/
lemma mem_processSys1Loop_fields (parse : String → List Token)
    (classifyLabel : String → Option String) :
    ∀ (reqs : List Sys2Agent.Sys1Input) (counter : Nat)
      (r : Sys2Agent.Sys2Record),
      r ∈ Sys2Agent.processSys1Loop parse classifyLabel reqs counter →
        r.classification = "Functional" ∧
        r.verification_mapping = "System Qualification Test (SYS.5)" ∧
        r.req_status = "Draft" := by
  intro reqs
  induction reqs with
  | nil => intro counter r hr; simp [Sys2Agent.processSys1Loop] at hr
  | cons q rest ih =>
    intro counter r hr
    simp only [Sys2Agent.processSys1Loop] at hr
    split at hr
    · exact ih counter r hr
    · rcases List.mem_cons.mp hr with h | h
      · subst h; exact ⟨rfl, rfl, rfl⟩
      · exact ih (counter + 1) r h

/-- The classify oracle only influences the `rationale` field of the SYS.2
drafting loop's output. -/
lemma processSys1Loop_map_stripRationale (parse : String → List Token)
    (c1 c2 : String → Option String) :
    ∀ (reqs : List Sys2Agent.Sys1Input) (counter : Nat),
      (Sys2Agent.processSys1Loop parse c1 reqs counter).map stripRationale =
        (Sys2Agent.processSys1Loop parse c2 reqs counter).map stripRationale := by
  intro reqs
  induction reqs with
  | nil => intro counter; rfl
  | cons q rest ih =>
    intro counter
    simp only [Sys2Agent.processSys1Loop]
    split
    · exact ih counter
    · simp only [List.map_cons]
      rw [ih (counter + 1)]
      rfl

/-- Every record created by the SYS.1 generation loop (padding aside) has a
non-empty customer trace list and the initial `Draft` status. -/
lemma mem_generateLoop_fields (parse : String → List Token) :
    ∀ (creqs : List ElicitationAgent.CustReq) (counter : Nat)
      (r : ElicitationAgent.Sys1Record),
      r ∈ (ElicitationAgent.generateLoop parse creqs counter).1 →
        r.customer_trace_ids ≠ [] ∧ r.req_status = "Draft" := by
  intro creqs
  induction creqs with
  | nil => intro counter r hr; simp [ElicitationAgent.generateLoop] at hr
  | cons q rest ih =>
    intro counter r hr
    simp only [ElicitationAgent.generateLoop] at hr
    split at hr
    · exact ih counter r hr
    · rcases List.mem_cons.mp hr with h | h
      · subst h; exact ⟨by simp, rfl⟩
      · exact ih (counter + 1) r h

/-- A record in the padded list is either from the input list or a synthetic
padding record. -/
lemma mem_padSys1 :
    ∀ (fuel counter : Nat) (lst : List ElicitationAgent.Sys1Record)
      (r : ElicitationAgent.Sys1Record),
      r ∈ ElicitationAgent.padSys1 fuel counter lst →
        r ∈ lst ∨ ∃ c, r = ElicitationAgent.mkPaddedSys1 c := by
  intro fuel
  induction fuel with
  | zero => intro counter lst r hr; exact Or.inl hr
  | succ f ih =>
    intro counter lst r hr
    simp only [ElicitationAgent.padSys1] at hr
    split at hr
    · rcases ih (counter + 1) (lst ++ [ElicitationAgent.mkPaddedSys1 counter]) r hr
        with h | h
      · rcases List.mem_append.mp h with h2 | h2
        · exact Or.inl h2
        · exact Or.inr ⟨counter, by simpa using h2⟩
      · exact Or.inr h
    · exact Or.inl hr

/-- Claim C1 (amended): the linguistic checker reports exactly one
unambiguity verdict per requirement (`Pass`, `Fail` or `Needs Review`), and
when the text contains both a vague term and an ambiguous pronoun the
reported verdict is `Needs Review` — the pronoun check runs last and
overwrites the vague-term `Fail`. -/
theorem linguistics_one_verdict_pronoun_overwrites_vague (reqText : String) :
    ((ReviewAgent.analyzeLinguistics reqText).1 = "Pass" ∨
     (ReviewAgent.analyzeLinguistics reqText).1 = "Fail" ∨
     (ReviewAgent.analyzeLinguistics reqText).1 = "Needs Review") ∧
    (ReviewAgent.foundVagueTerms reqText ≠ [] →
     ReviewAgent.foundAmbiguousPronouns reqText ≠ [] →
     (ReviewAgent.analyzeLinguistics reqText).1 = "Needs Review") := by
  constructor
  · by_cases h1 : (ReviewAgent.foundVagueTerms reqText).isEmpty <;>
      by_cases h2 : (ReviewAgent.foundAmbiguousPronouns reqText).isEmpty <;>
      simp [ReviewAgent.analyzeLinguistics, h1, h2]
  · intro _ hp
    have h2 : (ReviewAgent.foundAmbiguousPronouns reqText).isEmpty = false := by
      simpa [List.isEmpty_iff] using hp
    simp [ReviewAgent.analyzeLinguistics, h2]

/-- Witness for Claim C1 at the concrete text `"This is flexible"`. -/
theorem linguistics_one_verdict_pronoun_overwrites_vague_witness :
    ((ReviewAgent.analyzeLinguistics "This is flexible").1 = "Pass" ∨
     (ReviewAgent.analyzeLinguistics "This is flexible").1 = "Fail" ∨
     (ReviewAgent.analyzeLinguistics "This is flexible").1 = "Needs Review") ∧
    (ReviewAgent.analyzeLinguistics "This is flexible").1 = "Needs Review" :=
  ⟨(linguistics_one_verdict_pronoun_overwrites_vague "This is flexible").1,
   (linguistics_one_verdict_pronoun_overwrites_vague "This is flexible").2
     (by decide) (by decide)⟩

/-- Counterexample to Claim C1 as stated: `"This is flexible"` contains both
the vague term `flexible` and the ambiguous pronoun `this`, yet the reported
verdict is `Needs Review`, not `Fail`. -/
theorem linguistics_both_conditions_needs_review_counterexample :
    ReviewAgent.foundVagueTerms "This is flexible" ≠ [] ∧
    ReviewAgent.foundAmbiguousPronouns "This is flexible" ≠ [] ∧
    (ReviewAgent.analyzeLinguistics "This is flexible").1 ≠ "Fail" ∧
    (ReviewAgent.analyzeLinguistics "This is flexible").1 = "Needs Review" := by
  refine ⟨by decide, by decide, by decide, by decide⟩

/-- Claim C2 (amended): when the derivation engine detects passive voice, the
rewritten core text is the stripped source text prefixed with
`[Passive voice considered]` when the first passive subject's head is
POS-tagged as a verb, and with `[Passive voice detected]` otherwise; in both
cases the source text is kept verbatim (no grammatical transformation), and
the final derived text is that core, review-annotated and wrapped in the
requirement-type template. -/
theorem passive_marker_no_transformation (parse : String → List Token)
    (text : String) (h : Sys2Agent.passiveVoiceFound (parse text) = true) :
    Sys2Agent.passiveRewriteCore (parse text) text =
      (if Sys2Agent.passiveHeadIsVerb (parse text) then "[Passive voice considered] "
       else "[Passive voice detected] ") ++ pyStrip text ∧
    Sys2Agent.technicallyEvaluateAndRewrite parse text =
      Sys2Agent.applySingleTemplate
        (Sys2Agent.reviewAnnotated (parse text)
          (Sys2Agent.passiveRewriteCore (parse text) text))
        (Sys2Agent.determineType text) := by
  constructor
  · by_cases hv : Sys2Agent.passiveHeadIsVerb (parse text) <;>
      simp [Sys2Agent.passiveRewriteCore, h, hv]
  · rfl

/-- Witness for Claim C2 at the parse of `"It is done"`. -/
theorem passive_marker_no_transformation_witness :
    Sys2Agent.passiveRewriteCore (passiveParse "It is done") "It is done" =
      (if Sys2Agent.passiveHeadIsVerb (passiveParse "It is done")
       then "[Passive voice considered] " else "[Passive voice detected] ")
        ++ pyStrip "It is done" ∧
    Sys2Agent.technicallyEvaluateAndRewrite passiveParse "It is done" =
      Sys2Agent.applySingleTemplate
        (Sys2Agent.reviewAnnotated (passiveParse "It is done")
          (Sys2Agent.passiveRewriteCore (passiveParse "It is done") "It is done"))
        (Sys2Agent.determineType "It is done") :=
  passive_marker_no_transformation passiveParse "It is done" (by decide)

/-- Counterexample to Claim C2 as stated: for `"It is done"` (passive voice
detected, passive subject's head is a verb) the derived text is prefixed with
`[Passive voice considered]`, not `[Passive voice detected]`. -/
theorem passive_marker_considered_counterexample :
    Sys2Agent.passiveVoiceFound (passiveParse "It is done") = true ∧
    Sys2Agent.technicallyEvaluateAndRewrite passiveParse "It is done" =
      "[Passive voice considered] It is done" ∧
    Sys2Agent.technicallyEvaluateAndRewrite passiveParse "It is done" ≠
      "[Passive voice detected] It is done" := by
  refine ⟨by decide, by decide, by decide⟩

/-- Claim C3 (amended): whenever an ambiguity marker token is detected, the
`[Review: Potential ambiguity marker detected.]` suffix is appended to the
(possibly passive-annotated) core text, regardless of whether the requirement
is flagged for passive voice — the filter only removes the passive-voice note
from the review text, not the review suffix itself. -/
theorem review_suffix_regardless_of_passive (parse : String → List Token)
    (text : String)
    (h : Sys2Agent.ambiguityMarkerFound (parse text) = true) :
    Sys2Agent.technicallyEvaluateAndRewrite parse text =
      Sys2Agent.applySingleTemplate
        (Sys2Agent.passiveRewriteCore (parse text) text
          ++ " [Review: Potential ambiguity marker detected.]")
        (Sys2Agent.determineType text) := by
  have hfilter : Sys2Agent.otherFindings (parse text)
      = ["Potential ambiguity marker detected."] := by
    unfold Sys2Agent.otherFindings Sys2Agent.evaluationFindings
    rw [h]
    by_cases hp : Sys2Agent.passiveVoiceFound (parse text) <;>
      simp [hp] <;> decide
  simp only [Sys2Agent.technicallyEvaluateAndRewrite, Sys2Agent.reviewAnnotated,
    hfilter]
  rw [show String.intercalate "; " ["Potential ambiguity marker detected."]
      = "Potential ambiguity marker detected." from rfl]
  rw [review_suffix_merge]
  simp

/-- Witness for Claim C3 at the parse of `"The data may be processed"`. -/
theorem review_suffix_regardless_of_passive_witness :
    Sys2Agent.technicallyEvaluateAndRewrite modalPassiveParse
        "The data may be processed" =
      Sys2Agent.applySingleTemplate
        (Sys2Agent.passiveRewriteCore
            (modalPassiveParse "The data may be processed")
            "The data may be processed"
          ++ " [Review: Potential ambiguity marker detected.]")
        (Sys2Agent.determineType "The data may be processed") :=
  review_suffix_regardless_of_passive modalPassiveParse
    "The data may be processed" (by decide)

/-- Counterexample to Claim C3 as stated: `"The data may be processed"` is
flagged for passive voice and contains the marker `may`, yet its derived text
does carry a `[Review: ...]` suffix. -/
theorem review_suffix_with_passive_counterexample :
    Sys2Agent.passiveVoiceFound
      (modalPassiveParse "The data may be processed") = true ∧
    Sys2Agent.ambiguityMarkerFound
      (modalPassiveParse "The data may be processed") = true ∧
    Sys2Agent.technicallyEvaluateAndRewrite modalPassiveParse
        "The data may be processed" =
      "[Passive voice considered] The data may be processed [Review: Potential ambiguity marker detected.]" ∧
    strContains "[Review:"
      (Sys2Agent.technicallyEvaluateAndRewrite modalPassiveParse
        "The data may be processed") = true := by
  refine ⟨by decide, by decide, by decide, by decide⟩

/-- Claim C4 (amended): every emitted Tier2 record's verification method is
the hardcoded constant `System Qualification Test (SYS.5)`; the ordered rule
set of `_map_verification` is not what is stored. -/
theorem verification_mapping_constant (parse : String → List Token)
    (classifyLabel : String → Option String)
    (sys1Requirements : List Sys2Agent.Sys1Input) :
    (Sys2Agent.processSys1Input parse classifyLabel sys1Requirements).all
      (fun r => r.verification_mapping == "System Qualification Test (SYS.5)")
      = true := by
  rw [List.all_eq_true]
  intro r hr
  have h := mem_processSys1Loop_fields parse classifyLabel sys1Requirements 1 r
    (by simpa [Sys2Agent.processSys1Input, Sys2Agent.applyCustomRules] using hr)
  simp [h.2.1]

/-- Counterexample to Claim C4 as stated: for the text `"Coffee is hot"` the
ordered rule set yields the fallback `Test (Default)`, but the emitted record
stores `System Qualification Test (SYS.5)`. -/
theorem verification_mapping_ignores_rules_counterexample :
    (Sys2Agent.processSys1Input emptyParse noClassifier
        [{ sys1_id := "SYS.1-001", sys1_requirement := "Coffee is hot" }]).map
      (fun r => (r.sys2_requirement, r.verification_mapping))
      = [("Coffee is hot", "System Qualification Test (SYS.5)")] ∧
    Sys2Agent.mapVerification "SYS.2-001" "Coffee is hot" = "Test (Default)" ∧
    ("System Qualification Test (SYS.5)" : String) ≠ "Test (Default)" := by
  refine ⟨by decide, by decide, by decide⟩

/-- Claim C5 (amended): the intake agent's priority classifier follows the
claimed ordered rule set exactly, while the SYS.2 drafting agent's priority
classifier instead returns High only for critical/essential, Medium for
important/should, and Low otherwise. -/
theorem priority_classifiers_match_rule_sets (requirementText : String) :
    ElicitationAgent.assignPriority requirementText =
      SpecModel.intakePriorityRule requirementText ∧
    Sys2Agent.assignPriority requirementText =
      SpecModel.sys2PriorityRule requirementText :=
  ⟨rfl, rfl⟩

/-- Counterexample to Claim C5 as stated: `"The system must respond"`
contains `must`, so the claim requires priority High, but the SYS.2 drafting
agent's classifier returns Low. -/
theorem sys2_priority_must_not_high_counterexample :
    strContains "must" (pyLower "The system must respond") = true ∧
    Sys2Agent.assignPriority "The system must respond" = "Low" ∧
    ("Low" : String) ≠ "High" := by
  refine ⟨by decide, by decide, by decide⟩

/-- Claim C6 (amended): every SYS.1 record emitted by the derivation engine
either has a non-empty customer trace list (all records actually derived from
a customer requirement do) or is one of the synthetic padding records — with
empty text, empty trace list and no customer fields — that the engine appends
to the returned list to reach the minimum display count of 10. -/
theorem sys1_records_traced_or_padding (parse : String → List Token)
    (creqs : List ElicitationAgent.CustReq) (r : ElicitationAgent.Sys1Record)
    (hr : r ∈ ElicitationAgent.generateSys1Requirements parse creqs) :
    r.customer_trace_ids ≠ [] ∨
      (r.customer_trace_ids = [] ∧ r.sys1_requirement = "" ∧
       r.customer_id = none) := by
  unfold ElicitationAgent.generateSys1Requirements at hr
  rcases mem_padSys1 10 _ _ r hr with h | ⟨c, h⟩
  · exact Or.inl (mem_generateLoop_fields parse creqs 1 r h).1
  · subst h; exact Or.inr ⟨rfl, rfl, rfl⟩

/-- Witness for Claim C6: the second record of the padded output for a single
customer requirement. -/
theorem sys1_records_traced_or_padding_witness :
    ElicitationAgent.mkPaddedSys1 2 ∈
      ElicitationAgent.generateSys1Requirements emptyParse
        [{ customer_id := "CUST_REQ-001", customer_requirement := "Brew coffee" }] ∧
    ((ElicitationAgent.mkPaddedSys1 2).customer_trace_ids ≠ [] ∨
      ((ElicitationAgent.mkPaddedSys1 2).customer_trace_ids = [] ∧
       (ElicitationAgent.mkPaddedSys1 2).sys1_requirement = "" ∧
       (ElicitationAgent.mkPaddedSys1 2).customer_id = none)) :=
  ⟨by decide,
   sys1_records_traced_or_padding emptyParse
     [{ customer_id := "CUST_REQ-001", customer_requirement := "Brew coffee" }]
     (ElicitationAgent.mkPaddedSys1 2) (by decide)⟩

/-- Counterexample to Claim C6 as stated: from a single customer requirement
the engine returns 10 records, the second of which is a synthetic padding
record with an empty trace set and empty text, in the canonical output
list. -/
theorem sys1_padding_empty_trace_counterexample :
    ((ElicitationAgent.generateSys1Requirements emptyParse
        [{ customer_id := "CUST_REQ-001",
           customer_requirement := "Brew coffee" }]).get? 1).map
      (fun r => (r.customer_trace_ids, r.sys1_requirement))
      = some ([], "") ∧
    (ElicitationAgent.generateSys1Requirements emptyParse
        [{ customer_id := "CUST_REQ-001",
           customer_requirement := "Brew coffee" }]).length = 10 := by
  refine ⟨by decide, by decide⟩

/-- Claim C7 (amended): every requirement record is created with status
`Draft` (in both the SYS.1 and SYS.2 stages), but the status-update operation
performs no validation: for a matching id and any non-empty target value it
stores the provided status verbatim, whatever the current status. -/
theorem status_initial_draft_update_unvalidated :
    (∀ (parse : String → List Token) (creqs : List ElicitationAgent.CustReq),
      (ElicitationAgent.elicitationProcess parse creqs).all
        (fun r => r.req_status == "Draft") = true) ∧
    (∀ (parse : String → List Token) (classifyLabel : String → Option String)
        (reqs : List Sys2Agent.Sys1Input),
      (Sys2Agent.processSys1Input parse classifyLabel reqs).all
        (fun r => r.req_status == "Draft") = true) ∧
    (∀ (r0 : ElicitationAgent.Sys1Record)
        (rest : List ElicitationAgent.Sys1Record) (sys1Id newStatus : String),
      r0.sys1_id = sys1Id → sys1Id ≠ "" → newStatus ≠ "" →
        App.updateRequirementStatus (r0 :: rest) sys1Id newStatus =
          { r0 with req_status := newStatus } :: rest) := by
  refine ⟨?_, ?_, ?_⟩
  · intro parse creqs
    rw [List.all_eq_true]
    intro r hr
    rcases List.mem_map.mp hr with ⟨a, _, rfl⟩
    simp
  · intro parse classifyLabel reqs
    rw [List.all_eq_true]
    intro r hr
    have h := mem_processSys1Loop_fields parse classifyLabel reqs 1 r
      (by simpa [Sys2Agent.processSys1Input, Sys2Agent.applyCustomRules] using hr)
    simp [h.2.2]
  · intro r0 rest sys1Id newStatus hid hId hSt
    unfold App.updateRequirementStatus
    rw [string_data_isEmpty_eq_false hId, string_data_isEmpty_eq_false hSt]
    simp only [Bool.or_self, Bool.false_or, if_false]
    unfold App.updateStatusLoop
    have : (r0.sys1_id == sys1Id) = true := by simp [hid]
    simp [this]

/-- Witness for Claim C7: updating a `Rejected` record to the out-of-set
value `Accepted`. -/
theorem status_initial_draft_update_unvalidated_witness :
    App.updateRequirementStatus (rejectedRecord :: []) "SYS.1-001" "Accepted" =
      { rejectedRecord with req_status := "Accepted" } :: [] :=
  status_initial_draft_update_unvalidated.2.2 rejectedRecord [] "SYS.1-001"
    "Accepted" (by decide) (by decide) (by decide)

/-- Counterexample to Claim C7 as stated: the update operation moves a
requirement out of the terminal `Rejected` state and stores the value
`Accepted`, which is outside the sanctioned status set. -/
theorem status_update_stores_any_value_counterexample :
    rejectedRecord.req_status = "Rejected" ∧
    App.updateRequirementStatus [rejectedRecord] "SYS.1-001" "Accepted" =
      [{ rejectedRecord with req_status := "Accepted" }] ∧
    ¬ ("Accepted" ∈ ["Draft", "Reviewed", "Approved", "Rejected"]) := by
  refine ⟨by decide, by decide, by decide⟩

/-- Claim C8: the overall-compliant verdict is `Pass` exactly when both the
verification-criteria check and the testability check pass, and the concrete
text about 200 milliseconds is testable (quantifiable unit) but not
verification-criteria compliant, hence overall non-compliant. -/
theorem compliance_iff_and_milliseconds_example :
    (∀ reqText : String,
      (ReviewAgent.checkCompliance reqText).2.2 = "Pass" ↔
        ((ReviewAgent.checkCompliance reqText).1 = "Pass" ∧
         (ReviewAgent.checkCompliance reqText).2.1 = "Pass")) ∧
    ReviewAgent.checkCompliance "The system shall respond within 200 milliseconds."
      = ("Fail", "Pass", "Fail") := by
  constructor
  · intro reqText
    by_cases h1 : ReviewAgent.verificationPhrases.any
        (fun phrase => strContains phrase (pyLower reqText)) <;>
      by_cases h2 : ReviewAgent.quantifiableTerms.any
        (fun term => strContains term (pyLower reqText)) <;>
      simp [ReviewAgent.checkCompliance, h1, h2]
  · decide

/-- Claim C9: every emitted Tier2 record's classification is the fixed string
`Functional`, whatever the parse and classify oracles and the input texts;
and changing the external classifier changes the output records at most in
their `rationale` field. -/
theorem classification_always_functional :
    (∀ (parse : String → List Token) (classifyLabel : String → Option String)
        (sys1Requirements : List Sys2Agent.Sys1Input),
      (Sys2Agent.processSys1Input parse classifyLabel sys1Requirements).all
        (fun r => r.classification == "Functional") = true) ∧
    (∀ (parse : String → List Token) (c1 c2 : String → Option String)
        (sys1Requirements : List Sys2Agent.Sys1Input),
      (Sys2Agent.processSys1Input parse c1 sys1Requirements).map stripRationale =
        (Sys2Agent.processSys1Input parse c2 sys1Requirements).map
          stripRationale) := by
  constructor
  · intro parse classifyLabel sys1Requirements
    rw [List.all_eq_true]
    intro r hr
    have h := mem_processSys1Loop_fields parse classifyLabel sys1Requirements 1 r
      (by simpa [Sys2Agent.processSys1Input, Sys2Agent.applyCustomRules] using hr)
    simp [h.1]
  · intro parse c1 c2 sys1Requirements
    exact processSys1Loop_map_stripRationale parse c1 c2 sys1Requirements 1

/-- Claim C10: pronoun detection is substring containment, so any text whose
lowercasing contains the character sequence `it` — also inside a longer word —
is never given the `Pass` verdict. -/
theorem pronoun_substring_never_pass (reqText : String)
    (h : strContains "it" (pyLower reqText) = true) :
    (ReviewAgent.analyzeLinguistics reqText).1 ≠ "Pass" := by
  have hmem : "it" ∈ ReviewAgent.foundAmbiguousPronouns reqText := by
    unfold ReviewAgent.foundAmbiguousPronouns
    refine List.mem_filter.mpr ⟨by simp [ReviewAgent.ambiguousPronouns], ?_⟩
    rw [show pyLower "it" = "it" from rfl]
    exact h
  have h2 : (ReviewAgent.foundAmbiguousPronouns reqText).isEmpty = false := by
    rcases e : (ReviewAgent.foundAmbiguousPronouns reqText) with _ | ⟨a, l⟩
    · rw [e] at hmem; simp at hmem
    · simp
  simp [ReviewAgent.analyzeLinguistics, h2]

/-- Witness for Claim C10 at `"The monitor"`, where `it` occurs only inside
the word `monitor`. -/
theorem pronoun_substring_never_pass_witness :
    strContains "it" (pyLower "The monitor") = true ∧
    (ReviewAgent.analyzeLinguistics "The monitor").1 ≠ "Pass" :=
  ⟨by decide, pronoun_substring_never_pass "The monitor" (by decide)⟩
